import Mathlib

/-!
Verification of the polymarket-bot opportunity-scanner and take-profit /
stop-loss monitor against their natural-language specification.

The Python modules are shallowly embedded: prices, sizes and dollar amounts
become rationals, dictionaries become structures, and the external world
(order books, enrichment results, AI analyses) is passed in as lookup
functions.  Every definition mirrors a function of the source tree
(src/profit_monitor.py, src/monitor_config.py, src/opportunity_scanner.py,
src/scanner_config.py, src/api_cache.py); source line references are given
in the doc comments.
-/

namespace PolymarketBot

/-- Python truthiness of an optional float: `None` and `0.0` are falsy. -/
def qTruthy : Option ℚ → Bool
  | none => false
  | some q => q != 0

/-- src/monitor_config.py, class PositionConfig (lines 17-62). -/
structure PositionConfig where
  id : String := ""
  token_id : String
  name : String := ""
  side : String := "Yes"
  shares : ℚ
  entry_price : ℚ
  take_profit_pct : Option ℚ := none
  take_profit_price : Option ℚ := none
  stop_loss_pct : Option ℚ := none
  stop_loss_price : Option ℚ := none
  enabled : Bool := true
deriving Repr, DecidableEq

/-- src/monitor_config.py, PositionConfig.get_tp_target (lines 50-55):
returns the absolute price if truthy, else converts the percentage,
else None. -/
def PositionConfig.get_tp_target (c : PositionConfig) : Option ℚ :=
  if qTruthy c.take_profit_price then c.take_profit_price
  else if qTruthy c.take_profit_pct then
    some (c.entry_price * (1 + c.take_profit_pct.getD 0))
  else none

/-- src/monitor_config.py, PositionConfig.get_sl_target (lines 57-62). -/
def PositionConfig.get_sl_target (c : PositionConfig) : Option ℚ :=
  if qTruthy c.stop_loss_price then c.stop_loss_price
  else if qTruthy c.stop_loss_pct then
    some (c.entry_price * (1 - c.stop_loss_pct.getD 0))
  else none

/-- An order book snapshot: price-size pairs for bids and asks. -/
structure Book where
  bids : List (ℚ × ℚ) := []
  asks : List (ℚ × ℚ) := []
deriving Repr, DecidableEq

/-- src/profit_monitor.py, get_full_order_book (lines 39-57): bids sorted by
price descending. -/
def sortBids (l : List (ℚ × ℚ)) : List (ℚ × ℚ) :=
  List.insertionSort (fun a b => b.1 ≤ a.1) l

/-- src/profit_monitor.py, get_full_order_book: asks sorted by price
ascending. -/
def sortAsks (l : List (ℚ × ℚ)) : List (ℚ × ℚ) :=
  List.insertionSort (fun a b => a.1 ≤ b.1) l

/-- src/profit_monitor.py, check_position (line 223): best bid of the sorted
book, 0 when there are no bids. -/
def best_bid_of (book : Book) : ℚ :=
  match sortBids book.bids with
  | [] => 0
  | x :: _ => x.1

/-- src/profit_monitor.py, check_position (line 224): best ask of the sorted
book, 1.0 when there are no asks. -/
def best_ask_of (book : Book) : ℚ :=
  match sortAsks book.asks with
  | [] => 1
  | x :: _ => x.1

/-- src/profit_monitor.py, check_position (line 227): midpoint, falling back
to the best ask for a bidless book. -/
def midpoint_of (book : Book) : ℚ :=
  if best_bid_of book > 0 then (best_bid_of book + best_ask_of book) / 2
  else best_ask_of book

/-- src/profit_monitor.py, check_position (line 228): spread, treated as 1.0
for a bidless book. -/
def spread_of (book : Book) : ℚ :=
  if best_bid_of book > 0 then best_ask_of book - best_bid_of book else 1

/-- The possible outcomes of one monitor check of one position
(src/profit_monitor.py, check_position). -/
inductive MonitorAction
  | take_profit
  | stop_loss
  | already_sold
  | hold
deriving Repr, DecidableEq

/-- src/profit_monitor.py, ProfitMonitor.check_position (lines 206-262).
The `sold` flag models membership of the token in self.sold_tokens.  The
take-profit test compares the best bid (recomputed by find_bids_at_price
from the same book snapshot) against the TP target; the stop-loss test runs
only when the spread is below 0.50 and the midpoint is at or below the SL
target. -/
def check_position (sold : Bool) (c : PositionConfig) (book : Book) :
    MonitorAction :=
  if sold then .already_sold
  else
    let tp := c.get_tp_target
    let sl := c.get_sl_target
    if qTruthy tp ∧ tp.getD 0 ≤ best_bid_of book then .take_profit
    else if qTruthy sl ∧ midpoint_of book > 0 then
      if spread_of book < 1/2 ∧ midpoint_of book ≤ sl.getD 0 then .stop_loss
      else .hold
    else .hold

/-- A sell order as submitted by execute_sell (src/profit_monitor.py,
lines 111-122). -/
structure SellOrder where
  token_id : String
  shares : ℚ
  price : ℚ
deriving Repr, DecidableEq

/-- src/profit_monitor.py, ProfitMonitor.run (lines 322-334 and 359-373):
the first sell order submitted after a trigger.  On take-profit the sell is
placed at exactly the TP target for the full configured share count; on
stop-loss it is placed at the triggering best bid minus 0.001, floored at
0.01, again for the full configured share count. -/
def first_sell_order (sold : Bool) (c : PositionConfig) (book : Book) :
    Option SellOrder :=
  match check_position sold c book with
  | .take_profit =>
      some { token_id := c.token_id, shares := c.shares,
             price := c.get_tp_target.getD 0 }
  | .stop_loss =>
      some { token_id := c.token_id, shares := c.shares,
             price := max (best_bid_of book - 1/1000) (1/100) }
  | _ => none

/-- Claim C3: with a take-profit target set and the position not already
sold, a monitor check yields take_profit exactly when the best bid is at or
above the target, regardless of the spread. -/
theorem checkPosition_take_profit_iff_best_bid (c : PositionConfig)
    (book : Book) (htp : qTruthy c.get_tp_target = true) :
    check_position false c book = .take_profit ↔
      c.get_tp_target.getD 0 ≤ best_bid_of book := by
  unfold check_position
  simp only [Bool.false_eq_true, if_false, htp, true_and]
  split_ifs with h1 h2 h3 <;> simp_all

/-- Claim C2: with a stop-loss target set, stop_loss is never produced when
the spread is at or above 0.50; it is produced only when the spread is below
0.50 and the midpoint is at or below the target; and when the spread is too
wide and take-profit does not fire the check yields hold. -/
theorem checkPosition_stop_loss_spread_guard (c : PositionConfig)
    (book : Book) (hsl : qTruthy c.get_sl_target = true) :
    (1/2 ≤ spread_of book → check_position false c book ≠ .stop_loss) ∧
    (check_position false c book = .stop_loss →
      spread_of book < 1/2 ∧ midpoint_of book ≤ c.get_sl_target.getD 0) ∧
    (1/2 ≤ spread_of book → check_position false c book ≠ .take_profit →
      check_position false c book = .hold) := by
  unfold check_position
  simp only [Bool.false_eq_true, if_false]
  split_ifs with h1 h2 h3 <;>
    refine ⟨?_, ?_, ?_⟩ <;> intro h <;> simp_all <;> linarith [h2.1]

/-- Claim C4 (amended): on a take-profit trigger the first sell order is for
the full configured share count at exactly the take-profit target; on a
stop-loss trigger it is for the full configured share count at the
triggering best bid minus 0.001, floored at 0.01. -/
theorem first_sell_order_on_trigger (c : PositionConfig) (book : Book) :
    (check_position false c book = .take_profit →
      ∃ t, c.get_tp_target = some t ∧
        first_sell_order false c book =
          some { token_id := c.token_id, shares := c.shares, price := t }) ∧
    (check_position false c book = .stop_loss →
      first_sell_order false c book =
        some { token_id := c.token_id, shares := c.shares,
               price := max (best_bid_of book - 1/1000) (1/100) }) := by
  constructor
  · intro h
    have htp : qTruthy c.get_tp_target = true := by
      by_contra hq
      simp only [Bool.not_eq_true] at hq
      unfold check_position at h
      simp only [Bool.false_eq_true, if_false, hq, Bool.false_eq_true, false_and, if_false] at h
      split_ifs at h <;> simp_all
    obtain ⟨t, ht⟩ : ∃ t, c.get_tp_target = some t := by
      cases hh : c.get_tp_target <;> simp_all [qTruthy]
    exact ⟨t, ht, by simp [first_sell_order, h, ht]⟩
  · intro h
    simp [first_sell_order, h]

/-- Claim C4, counterexample to the claim as stated: with a take-profit
target of 0.80 and a best bid of 0.85 the trigger fires, but the first sell
is submitted at exactly 0.80, not at the claimed target minus 0.001. -/
theorem first_sell_price_counterexample :
    check_position false
        { token_id := "T", shares := 10, entry_price := 1/2,
          take_profit_price := some (4/5) }
        { bids := [(17/20, 50)], asks := [(9/10, 50)] } = .take_profit ∧
    first_sell_order false
        { token_id := "T", shares := 10, entry_price := 1/2,
          take_profit_price := some (4/5) }
        { bids := [(17/20, 50)], asks := [(9/10, 50)] } =
      some { token_id := "T", shares := 10, price := 4/5 } ∧
    (4/5 : ℚ) ≠ max (4/5 - 1/1000) (1/100) := by
  refine ⟨?_, ?_, by norm_num⟩ <;>
    simp [check_position, first_sell_order, PositionConfig.get_tp_target,
      PositionConfig.get_sl_target, qTruthy, best_bid_of, best_ask_of,
      midpoint_of, spread_of, sortBids, sortAsks, List.insertionSort,
      List.orderedInsert] <;> norm_num

/-- Claim C10: a stored absolute target of exactly 0.0 with an unset or zero
percentage is treated as no target at all, so the corresponding trigger can
never fire. -/
theorem zero_target_treated_as_unset (c : PositionConfig) :
    (c.take_profit_price = some 0 →
      (c.take_profit_pct = none ∨ c.take_profit_pct = some 0) →
      c.get_tp_target = none ∧
        ∀ (sold : Bool) (book : Book),
          check_position sold c book ≠ .take_profit) ∧
    (c.stop_loss_price = some 0 →
      (c.stop_loss_pct = none ∨ c.stop_loss_pct = some 0) →
      c.get_sl_target = none ∧
        ∀ (sold : Bool) (book : Book),
          check_position sold c book ≠ .stop_loss) := by
  constructor
  · intro hp hpct
    have htp : c.get_tp_target = none := by
      unfold PositionConfig.get_tp_target
      rcases hpct with h | h <;> simp [hp, h, qTruthy]
    refine ⟨htp, fun sold book => ?_⟩
    unfold check_position
    split_ifs with h1 h2 h3 h4 <;> simp_all [htp, qTruthy] <;>
      split_ifs <;> simp_all
  · intro hp hpct
    have hsl : c.get_sl_target = none := by
      unfold PositionConfig.get_sl_target
      rcases hpct with h | h <;> simp [hp, h, qTruthy]
    refine ⟨hsl, fun sold book => ?_⟩
    unfold check_position
    split_ifs with h1 h2 h3 h4 <;> simp_all [hsl, qTruthy] <;>
      split_ifs <;> simp_all

/-- Witness for C3 at the spec example: best bid 0.85, TP target 0.80. -/
theorem checkPosition_take_profit_iff_best_bid_witness :
    qTruthy (PositionConfig.get_tp_target
        { token_id := "T", shares := 10, entry_price := 1/2,
          take_profit_price := some (4/5) }) = true ∧
    check_position false
        { token_id := "T", shares := 10, entry_price := 1/2,
          take_profit_price := some (4/5) }
        { bids := [(17/20, 50)], asks := [(19/20, 50)] } = .take_profit := by
  refine ⟨by simp [PositionConfig.get_tp_target, qTruthy], ?_⟩
  exact (checkPosition_take_profit_iff_best_bid _ _
      (by simp [PositionConfig.get_tp_target, qTruthy])).mpr
    (by simp [PositionConfig.get_tp_target, qTruthy, best_bid_of, sortBids,
        List.insertionSort, List.orderedInsert]; norm_num)

/-- Witness for C2 at the spec example: best bid 0.05, best ask 0.70
(spread 0.65), stop-loss target 0.20 yields hold. -/
theorem checkPosition_stop_loss_spread_guard_witness :
    (1/2 : ℚ) ≤ spread_of { bids := [(1/20, 100)], asks := [(7/10, 100)] } ∧
    check_position false
        { token_id := "T", shares := 10, entry_price := 2/5,
          stop_loss_price := some (1/5) }
        { bids := [(1/20, 100)], asks := [(7/10, 100)] } ≠ .stop_loss ∧
    check_position false
        { token_id := "T", shares := 10, entry_price := 2/5,
          stop_loss_price := some (1/5) }
        { bids := [(1/20, 100)], asks := [(7/10, 100)] } = .hold := by
  have hs : (1/2 : ℚ) ≤
      spread_of { bids := [(1/20, 100)], asks := [(7/10, 100)] } := by
    simp [spread_of, best_bid_of, best_ask_of, sortBids, sortAsks,
      List.insertionSort, List.orderedInsert]
    norm_num
  have h := checkPosition_stop_loss_spread_guard
    { token_id := "T", shares := 10, entry_price := 2/5,
      stop_loss_price := some (1/5) }
    { bids := [(1/20, 100)], asks := [(7/10, 100)] }
    (by simp [PositionConfig.get_sl_target, qTruthy])
  refine ⟨hs, h.1 hs, h.2.2 hs ?_⟩
  simp [check_position, PositionConfig.get_tp_target,
    PositionConfig.get_sl_target, qTruthy, best_bid_of, best_ask_of,
    midpoint_of, spread_of, sortBids, sortAsks, List.insertionSort,
    List.orderedInsert]
  split_ifs <;> simp

/-- Witness for C4 (amended): the concrete first sell orders after a
take-profit trigger at target 0.80 and a stop-loss trigger at best bid
0.15. -/
theorem first_sell_order_on_trigger_witness :
    first_sell_order false
        { token_id := "T", shares := 10, entry_price := 1/2,
          take_profit_price := some (4/5) }
        { bids := [(17/20, 50)], asks := [(9/10, 50)] } =
      some { token_id := "T", shares := 10, price := 4/5 } ∧
    first_sell_order false
        { token_id := "T", shares := 5, entry_price := 2/5,
          stop_loss_price := some (1/5) }
        { bids := [(3/20, 100)], asks := [(1/4, 100)] } =
      some { token_id := "T", shares := 5, price := 149/1000 } := by
  constructor
  · obtain ⟨t, ht, h⟩ := (first_sell_order_on_trigger
      { token_id := "T", shares := 10, entry_price := 1/2,
        take_profit_price := some (4/5) }
      { bids := [(17/20, 50)], asks := [(9/10, 50)] }).1
      (by simp [check_position, PositionConfig.get_tp_target,
          PositionConfig.get_sl_target, qTruthy, best_bid_of, best_ask_of,
          midpoint_of, spread_of, sortBids, sortAsks, List.insertionSort,
          List.orderedInsert]; norm_num)
    simp [PositionConfig.get_tp_target, qTruthy] at ht
    rw [h, ← ht]
  · have h := (first_sell_order_on_trigger
      { token_id := "T", shares := 5, entry_price := 2/5,
        stop_loss_price := some (1/5) }
      { bids := [(3/20, 100)], asks := [(1/4, 100)] }).2
      (by simp [check_position, PositionConfig.get_tp_target,
          PositionConfig.get_sl_target, qTruthy, best_bid_of, best_ask_of,
          midpoint_of, spread_of, sortBids, sortAsks, List.insertionSort,
          List.orderedInsert]; norm_num)
    rw [h]
    simp [best_bid_of, sortBids, List.insertionSort, List.orderedInsert]
    norm_num

/-- Witness for C10: a config storing absolute targets of exactly 0.0 with
unset percentages has no targets and never triggers a sell. -/
theorem zero_target_treated_as_unset_witness :
    PositionConfig.get_tp_target
        { token_id := "T", shares := 10, entry_price := 1/2,
          take_profit_price := some 0, stop_loss_price := some 0 } = none ∧
    PositionConfig.get_sl_target
        { token_id := "T", shares := 10, entry_price := 1/2,
          take_profit_price := some 0, stop_loss_price := some 0 } = none ∧
    check_position false
        { token_id := "T", shares := 10, entry_price := 1/2,
          take_profit_price := some 0, stop_loss_price := some 0 }
        { bids := [(1/100, 10)], asks := [(2/100, 10)] } ≠ .take_profit ∧
    check_position false
        { token_id := "T", shares := 10, entry_price := 1/2,
          take_profit_price := some 0, stop_loss_price := some 0 }
        { bids := [(1/100, 10)], asks := [(2/100, 10)] } ≠ .stop_loss := by
  have h := zero_target_treated_as_unset
    { token_id := "T", shares := 10, entry_price := 1/2,
      take_profit_price := some 0, stop_loss_price := some 0 }
  obtain ⟨h1, h2⟩ := h.1 rfl (Or.inl rfl)
  obtain ⟨h3, h4⟩ := h.2 rfl (Or.inl rfl)
  exact ⟨h1, h3, h2 false _, h4 false _⟩

/-- The four risk modes of src/scanner_config.py. -/
inductive RiskMode
  | conservative
  | moderate
  | aggressive
  | speculative
deriving Repr, DecidableEq

/-- One row of RISK_PROFILE_THRESHOLDS (src/scanner_config.py,
lines 106-143). -/
structure RiskThresholds where
  min_liquidity : ℚ
  max_spread_pct : ℚ
  min_profit_pct : ℚ
  min_confidence_score : ℚ
  skip_uncertain_range : Option (ℚ × ℚ)
  filter_claude_skip : Bool
  filter_event_occurred : Bool
deriving Repr, DecidableEq

/-- src/scanner_config.py, RISK_PROFILE_THRESHOLDS (lines 106-143). -/
def RISK_PROFILE_THRESHOLDS : RiskMode → RiskThresholds
  | .conservative =>
    { min_liquidity := 1000, max_spread_pct := 5/100, min_profit_pct := 3/100,
      min_confidence_score := 60/100,
      skip_uncertain_range := some (40/100, 60/100),
      filter_claude_skip := true, filter_event_occurred := true }
  | .moderate =>
    { min_liquidity := 500, max_spread_pct := 10/100, min_profit_pct := 2/100,
      min_confidence_score := 40/100,
      skip_uncertain_range := some (45/100, 55/100),
      filter_claude_skip := false, filter_event_occurred := true }
  | .aggressive =>
    { min_liquidity := 200, max_spread_pct := 15/100, min_profit_pct := 1/100,
      min_confidence_score := 30/100, skip_uncertain_range := none,
      filter_claude_skip := false, filter_event_occurred := false }
  | .speculative =>
    { min_liquidity := 100, max_spread_pct := 25/100,
      min_profit_pct := 5/1000, min_confidence_score := 20/100,
      skip_uncertain_range := none, filter_claude_skip := false,
      filter_event_occurred := false }

/-- One weight table of RISK_WEIGHTS / RISK_WEIGHTS_NO_CLAUDE
(src/scanner_config.py, lines 147-234).  The NO_CLAUDE tables have no
claude-related keys; Python reads absent keys as 0, and those terms are
only added when Claude analysis is enabled. -/
structure RiskWeights where
  time_to_expiry : ℚ
  liquidity : ℚ
  price_distance : ℚ
  news_sentiment : ℚ
  volume : ℚ
  spread : ℚ
  claude_confidence : ℚ := 0
  claude_edge : ℚ := 0
  price_trend : ℚ := 0
  correlation_risk : ℚ := 0
deriving Repr, DecidableEq

/-- src/scanner_config.py, RISK_WEIGHTS (lines 147-199). -/
def RISK_WEIGHTS : RiskMode → RiskWeights
  | .conservative =>
    { time_to_expiry := 15/100, liquidity := 10/100,
      price_distance := 10/100, news_sentiment := 5/100, volume := 5/100,
      spread := 5/100, claude_confidence := 25/100, claude_edge := 15/100,
      price_trend := 5/100, correlation_risk := 5/100 }
  | .moderate =>
    { time_to_expiry := 10/100, liquidity := 10/100,
      price_distance := 15/100, news_sentiment := 5/100, volume := 5/100,
      spread := 5/100, claude_confidence := 20/100, claude_edge := 15/100,
      price_trend := 10/100, correlation_risk := 5/100 }
  | .aggressive =>
    { time_to_expiry := 5/100, liquidity := 5/100, price_distance := 15/100,
      news_sentiment := 5/100, volume := 5/100, spread := 5/100,
      claude_confidence := 25/100, claude_edge := 20/100,
      price_trend := 10/100, correlation_risk := 5/100 }
  | .speculative =>
    { time_to_expiry := 5/100, liquidity := 5/100, price_distance := 20/100,
      news_sentiment := 5/100, volume := 5/100, spread := 5/100,
      claude_confidence := 20/100, claude_edge := 25/100,
      price_trend := 5/100, correlation_risk := 5/100 }

/-- src/scanner_config.py, RISK_WEIGHTS_NO_CLAUDE (lines 202-234). -/
def RISK_WEIGHTS_NO_CLAUDE : RiskMode → RiskWeights
  | .conservative =>
    { time_to_expiry := 25/100, liquidity := 20/100,
      price_distance := 25/100, news_sentiment := 15/100, volume := 10/100,
      spread := 5/100 }
  | .moderate =>
    { time_to_expiry := 15/100, liquidity := 15/100,
      price_distance := 30/100, news_sentiment := 20/100, volume := 10/100,
      spread := 10/100 }
  | .aggressive =>
    { time_to_expiry := 10/100, liquidity := 10/100,
      price_distance := 35/100, news_sentiment := 25/100, volume := 10/100,
      spread := 10/100 }
  | .speculative =>
    { time_to_expiry := 10/100, liquidity := 5/100, price_distance := 40/100,
      news_sentiment := 20/100, volume := 10/100, spread := 15/100 }

/-- src/opportunity_scanner.py, analyze_liquidity result dictionary
(lines 282-330). -/
structure LiquidityInfo where
  ask_liquidity : ℚ
  bid_liquidity : ℚ
  total_liquidity : ℚ
  best_ask : ℚ
  best_bid : ℚ
  spread : ℚ
  spread_pct : ℚ
deriving Repr, DecidableEq

/-- src/opportunity_scanner.py, analyze_liquidity (lines 282-320) on a
successfully fetched order book.  The book lists are used in API order
(assumed best-first); liquidity sums price times size over the top five
levels per side. -/
def analyze_liquidity_book (book : Book) : LiquidityInfo :=
  let ask_liquidity := (book.asks.take 5).foldl (fun s o => s + o.2 * o.1) 0
  let bid_liquidity := (book.bids.take 5).foldl (fun s o => s + o.2 * o.1) 0
  let best_ask := match book.asks with | [] => 1 | a :: _ => a.1
  let best_bid := match book.bids with | [] => 0 | b :: _ => b.1
  let spread := best_ask - best_bid
  let spread_pct :=
    if best_bid ≥ 1/10 ∧ best_ask ≤ 9/10 then
      let midpoint := (best_ask + best_bid) / 2
      if midpoint > 0 then spread / midpoint else 1
    else
      if best_ask < 1 then max 0 (1 - best_ask) else 1
  { ask_liquidity := ask_liquidity, bid_liquidity := bid_liquidity,
    total_liquidity := ask_liquidity + bid_liquidity, best_ask := best_ask,
    best_bid := best_bid, spread := spread, spread_pct := spread_pct }

/-- src/opportunity_scanner.py, analyze_liquidity failure branch
(lines 321-330): a fetch error degrades to zero liquidity and a 100 percent
spread. -/
def analyze_liquidity_fail : LiquidityInfo :=
  { ask_liquidity := 0, bid_liquidity := 0, total_liquidity := 0,
    best_ask := 1, best_bid := 0, spread := 1, spread_pct := 1 }

/-- src/opportunity_scanner.py, analyze_liquidity (lines 282-330), with the
order-book fetch modelled as a lookup that may fail. -/
def analyze_liquidity (getBook : String → Option Book) (token_id : String) :
    LiquidityInfo :=
  match getBook token_id with
  | some book => analyze_liquidity_book book
  | none => analyze_liquidity_fail

/-- src/opportunity_scanner.py, calculate_expected_profit (lines 383-397).
Both branches of the side test compute the same value, as in the source. -/
def calculate_expected_profit (entry_price expected_resolution : ℚ)
    (side : String) : ℚ :=
  let profit :=
    if side = "YES" then expected_resolution - entry_price
    else expected_resolution - entry_price
  if entry_price > 0 then profit / entry_price else 0

/-- A market as fetched from the API, with the fields the pre-filter reads
(src/opportunity_scanner.py, lines 805-823).  Prices and token ids are kept
as lists because the source indexes into parsed JSON lists with defaults. -/
structure Market where
  conditionId : String
  question : String := ""
  volume : ℚ := 0
  volume24hr : ℚ := 0
  outcomePrices : List ℚ := []
  clobTokenIds : List String := []
  hours_to_expiry : ℚ := 0
deriving Repr, DecidableEq

/-- A market annotated by the pre-filter (the underscore-prefixed keys the
source stores back into the market dict). -/
structure Candidate where
  market : Market
  yes_price : ℚ
  no_price : ℚ
  yes_token : String
  no_token : String
  volume_24h : ℚ
  recommended_side : String
  entry_price : ℚ
  token_id : String
  liquidity_info : LiquidityInfo
  liquidity : ℚ
  expected_profit : ℚ
deriving Repr, DecidableEq

/-- src/opportunity_scanner.py, _pre_filter_markets, per-market body
(lines 805-871): parse prices and tokens, skip the uncertain price range,
pick the side priced closer to 1.0 by testing yes_price against 0.50,
then apply the liquidity, spread and expected-profit filters. -/
def pre_filter_one (th : RiskThresholds) (getBook : String → Option Book)
    (m : Market) : Option Candidate :=
  let yes_price := m.outcomePrices.getD 0 (1/2)
  let no_price := m.outcomePrices.getD 1 (1/2)
  let yes_token := m.clobTokenIds.getD 0 ""
  let no_token := m.clobTokenIds.getD 1 ""
  let volume_24h := m.volume24hr
  let uncertain_hit : Bool :=
    match th.skip_uncertain_range with
    | some (low, high) => decide (low < yes_price ∧ yes_price < high)
    | none => false
  if uncertain_hit then none
  else
    let token_id := if yes_price < 50/100 then no_token else yes_token
    let recommended_side := if yes_price < 50/100 then "NO" else "YES"
    let entry_price := if yes_price < 50/100 then no_price else yes_price
    if token_id = "" then none
    else
      let li := analyze_liquidity getBook token_id
      if li.total_liquidity < th.min_liquidity then none
      else if li.spread_pct > th.max_spread_pct then none
      else
        let expected_profit :=
          calculate_expected_profit entry_price 1 recommended_side
        if expected_profit < th.min_profit_pct then none
        else
          some { market := m, yes_price := yes_price, no_price := no_price,
                 yes_token := yes_token, no_token := no_token,
                 volume_24h := volume_24h,
                 recommended_side := recommended_side,
                 entry_price := entry_price, token_id := token_id,
                 liquidity_info := li, liquidity := li.total_liquidity,
                 expected_profit := expected_profit }

/-- src/opportunity_scanner.py, _pre_filter_markets (lines 779-872): cap to
the top max_markets_to_analyze markets by total volume, then filter each
market with pre_filter_one for the current risk mode. -/
def pre_filter_markets (max_markets_to_analyze : ℕ) (mode : RiskMode)
    (getBook : String → Option Book) (markets : List Market) :
    List Candidate :=
  let markets :=
    if markets.length > max_markets_to_analyze then
      (List.insertionSort (fun a b : Market => b.volume ≤ a.volume)
        markets).take max_markets_to_analyze
    else markets
  markets.filterMap (pre_filter_one (RISK_PROFILE_THRESHOLDS mode) getBook)

/-- Helper: what pre_filter_one guarantees about the side selection of any
candidate it emits. -/
theorem pre_filter_one_side (th : RiskThresholds)
    (getBook : String → Option Book) (m : Market) (c : Candidate)
    (h : pre_filter_one th getBook m = some c) :
    (c.recommended_side = "NO" ↔ c.yes_price < 1/2) ∧
    c.entry_price =
      (if c.yes_price < 1/2 then c.no_price else c.yes_price) ∧
    (c.yes_price + c.no_price = 1 →
      |1 - c.entry_price| ≤
        |1 - (if c.yes_price < 1/2 then c.yes_price else c.no_price)|) := by
  simp only [pre_filter_one] at h
  split_ifs at h with h1 h2 h3 h4 h5 h6 h7 h8 h9 h10
  all_goals try exact Option.noConfusion h
  · injection h with h
    subst h
    dsimp only
    have hy2 : m.outcomePrices.getD 0 (1/2) < 1/2 := by linarith
    refine ⟨⟨fun _ => hy2, fun _ => rfl⟩, (if_pos hy2).symm, fun hsum => ?_⟩
    rw [if_pos hy2]
    have hno : m.outcomePrices.getD 1 (1/2) =
        1 - m.outcomePrices.getD 0 (1/2) := by linarith
    rw [hno]
    have hsimp : (1 : ℚ) - (1 - m.outcomePrices.getD 0 (1/2)) =
        m.outcomePrices.getD 0 (1/2) := by ring
    rw [hsimp]
    rcases le_or_lt 0 (m.outcomePrices.getD 0 (1/2)) with hy | hy
    · rw [abs_of_nonneg hy, abs_of_nonneg (by linarith)]
      linarith
    · rw [abs_of_nonpos (by linarith), abs_of_nonneg (by linarith)]
      linarith
  · injection h with h
    subst h
    dsimp only
    have hge : (1/2 : ℚ) ≤ m.outcomePrices.getD 0 (1/2) := by
      by_contra hlt
      exact h2 (by push_neg at hlt; linarith)
    have hy2 : ¬ m.outcomePrices.getD 0 (1/2) < 1/2 := not_lt.mpr hge
    refine ⟨⟨fun hc => absurd hc (by simp), fun hlt => absurd hlt hy2⟩,
      (if_neg hy2).symm, fun hsum => ?_⟩
    rw [if_neg hy2]
    have hno : m.outcomePrices.getD 1 (1/2) =
        1 - m.outcomePrices.getD 0 (1/2) := by linarith
    rw [hno]
    have hsimp : (1 : ℚ) - (1 - m.outcomePrices.getD 0 (1/2)) =
        m.outcomePrices.getD 0 (1/2) := by ring
    rw [hsimp]
    rcases le_or_lt (m.outcomePrices.getD 0 (1/2)) 1 with hy | hy
    · rw [abs_of_nonneg (by linarith), abs_of_nonneg (by linarith)]
      linarith
    · rw [abs_of_nonpos (by linarith), abs_of_nonneg (by linarith)]
      linarith

/-- Claim C1 (amended): the pre-filter recommends NO exactly when the parsed
YES price is below 0.50 and sets entry_price to the recommended side;
when the two outcome prices sum to 1 this picks an outcome whose price is
weakly closer to 1.0, ties broken towards YES. -/
theorem preFilter_side_selection (maxN : ℕ) (mode : RiskMode)
    (getBook : String → Option Book) (markets : List Market) (c : Candidate)
    (hc : c ∈ pre_filter_markets maxN mode getBook markets) :
    (c.recommended_side = "NO" ↔ c.yes_price < 1/2) ∧
    c.entry_price =
      (if c.yes_price < 1/2 then c.no_price else c.yes_price) ∧
    (c.yes_price + c.no_price = 1 →
      |1 - c.entry_price| ≤
        |1 - (if c.yes_price < 1/2 then c.yes_price else c.no_price)|) := by
  simp only [pre_filter_markets] at hc
  obtain ⟨m, _, hmc⟩ := List.mem_filterMap.mp hc
  exact pre_filter_one_side _ getBook m c hmc

/-- Concrete market for the C1 witness: yes price 0.3, no price 0.7. -/
def c1_market : Market :=
  { conditionId := "M", volume24hr := 1000, outcomePrices := [3/10, 7/10],
    clobTokenIds := ["YT", "NT"], hours_to_expiry := 12 }

/-- Concrete order-book lookup for the C1 witness. -/
def c1_getBook : String → Option Book := fun t =>
  if t = "NT" then some { bids := [(13/20, 100)], asks := [(7/10, 100)] }
  else none

/-- The candidate the pre-filter emits for c1_market under c1_getBook in
speculative mode. -/
def c1_candidate : Candidate :=
  { market := c1_market, yes_price := 3/10, no_price := 7/10,
    yes_token := "YT", no_token := "NT", volume_24h := 1000,
    recommended_side := "NO", entry_price := 7/10, token_id := "NT",
    liquidity_info := { ask_liquidity := 70, bid_liquidity := 65,
                        total_liquidity := 135, best_ask := 7/10,
                        best_bid := 13/20, spread := 1/20,
                        spread_pct := 2/27 },
    liquidity := 135, expected_profit := 3/7 }

/-- Witness for C1 (amended) at the spec example: yes price 0.3, no price
0.7 gives recommended side NO with entry price 0.7, which is weakly closer
to 1.0. -/
theorem preFilter_side_selection_witness :
    c1_candidate ∈ pre_filter_markets 50 .speculative c1_getBook [c1_market] ∧
    (c1_candidate.recommended_side = "NO" ↔ c1_candidate.yes_price < 1/2) ∧
    c1_candidate.entry_price =
      (if c1_candidate.yes_price < 1/2 then c1_candidate.no_price
       else c1_candidate.yes_price) ∧
    (|1 - c1_candidate.entry_price| ≤
      |1 - (if c1_candidate.yes_price < 1/2 then c1_candidate.yes_price
            else c1_candidate.no_price)|) := by
  have hmem : c1_candidate ∈
      pre_filter_markets 50 .speculative c1_getBook [c1_market] := by
    have heq : pre_filter_markets 50 .speculative c1_getBook [c1_market] =
        [c1_candidate] := by
      simp [pre_filter_markets, pre_filter_one, analyze_liquidity,
        analyze_liquidity_book, calculate_expected_profit,
        RISK_PROFILE_THRESHOLDS, c1_market, c1_getBook, c1_candidate,
        List.filterMap_cons]
      norm_num
      rw [if_neg (by decide)]
    rw [heq]
    exact List.mem_singleton_self _
  have h := preFilter_side_selection 50 .speculative c1_getBook [c1_market]
    c1_candidate hmem
  exact ⟨hmem, h.1, h.2.1, h.2.2 (by simp [c1_candidate]; norm_num)⟩

/-- Concrete market refuting C1 as stated: prices 0.45 and 0.40 do not sum
to 1, the code picks NO, and NO at 0.40 is strictly farther from 1.0 than
YES at 0.45. -/
def c1_market_bad : Market :=
  { conditionId := "M", volume24hr := 5000, outcomePrices := [9/20, 2/5],
    clobTokenIds := ["YT", "NT"], hours_to_expiry := 12 }

/-- Order-book lookup for the C1 counterexample. -/
def c1_getBook_bad : String → Option Book := fun t =>
  if t = "NT" then
    some { bids := [(9/20, 10000)], asks := [(1/2, 10000)] }
  else none

/-- Claim C1, counterexample to the claim as stated: with parsed prices
yes 0.45 and no 0.40 (which do not sum to 1) the aggressive-mode pre-filter
emits a candidate with recommended side NO and entry price 0.40, although
the YES price 0.45 is strictly closer to 1.0. -/
theorem preFilter_side_closer_to_one_counterexample :
    (pre_filter_markets 50 .aggressive c1_getBook_bad [c1_market_bad]).map
      (fun c => (c.recommended_side, c.entry_price, c.yes_price,
        c.no_price)) = [("NO", 2/5, 9/20, 2/5)] ∧
    |1 - (9/20 : ℚ)| < |1 - (2/5 : ℚ)| := by
  constructor
  · simp [pre_filter_markets, pre_filter_one, analyze_liquidity,
      analyze_liquidity_book, calculate_expected_profit,
      RISK_PROFILE_THRESHOLDS, c1_market_bad, c1_getBook_bad,
      List.filterMap_cons]
    norm_num
    rw [if_neg (by decide)]
    simp
  · rw [abs_of_nonneg (by norm_num), abs_of_nonneg (by norm_num)]
    norm_num

/-- A successful Claude market analysis (src/market_analyzer.py result as
consumed by _create_enhanced_opportunity): percentages are on a 0-100
scale. -/
structure ClaudeAnalysis where
  probability_yes : ℚ
  confidence : ℚ
  recommendation : String
  reasoning : String := ""
  edge_estimate : ℚ
  risk_factors : List String := []
deriving Repr, DecidableEq

/-- Web research attached to a market (src/opportunity_scanner.py,
lines 965-967: summary and event_status of the _web_research dict). -/
structure WebResearch where
  summary : String := ""
  event_status : String := "UNKNOWN"
deriving Repr, DecidableEq

/-- Enrichment annotations attached by the data enricher
(src/opportunity_scanner.py, lines 957-963: _price_trend,
_price_volatility, _related_markets, _correlation_risk).  Related markets
are modelled by their condition ids, the only field read downstream. -/
structure EnrichInfo where
  price_trend : String := "STABLE"
  price_volatility : ℚ := 0
  related_markets : List String := []
  correlation_risk : ℚ := 0
deriving Repr, DecidableEq

/-- Real-time facts for a market (src/facts_gatherer.py MarketFacts, as
consumed by _apply_facts). -/
structure MarketFacts where
  key_facts : List String := []
  current_status : String := ""
  progress_indicator : String := ""
  data_quality : String := "UNKNOWN"
deriving Repr, DecidableEq

/-- A deep research result (src/opportunity_scanner.py, dictionary consumed
by _apply_deep_research, lines 1176-1222). -/
structure DeepResult where
  executive_summary : String := ""
  research_probability : ℚ := 1/2
  research_quality : String := "NONE"
  key_facts : List String := []
  recent_news : List String := []
  expert_opinions : List String := []
  contrary_evidence : List String := []
  sentiment : String := "NEUTRAL"
  event_occurred : Bool := false
  final_probability : ℚ := 1/2
  final_confidence : ℚ := 1/2
  recommendation : String := "SKIP"
  edge : ℚ := 0
  reasoning : String := ""
deriving Repr, DecidableEq

/-- src/opportunity_scanner.py, MarketOpportunity (the fields the verified
pipeline stages read or write). -/
structure MarketOpportunity where
  condition_id : String
  recommended_side : String
  token_id : String
  entry_price : ℚ
  expected_profit_pct : ℚ
  confidence_score : ℚ
  risk_score : ℚ
  liquidity : ℚ
  spread : ℚ
  volume_24h : ℚ
  hours_to_expiry : ℚ := 0
  claude_probability : ℚ := 1/2
  claude_confidence : ℚ := 1/2
  claude_recommendation : String := "SKIP"
  claude_reasoning : String := ""
  claude_edge : ℚ := 0
  price_trend : String := "STABLE"
  price_volatility : ℚ := 0
  related_markets : List String := []
  correlation_risk : ℚ := 0
  web_context : String := ""
  event_status : String := "UNKNOWN"
  triggering_event_detected : Bool := false
  ai_analysis_skipped : Bool := false
  research_facts : List String := []
  research_status : String := ""
  research_progress : String := ""
  facts_quality : String := "UNKNOWN"
  deep_research_summary : String := ""
  deep_research_probability : ℚ := 1/2
  deep_research_quality : String := "NONE"
  key_facts : List String := []
  recent_news : List String := []
  expert_opinions : List String := []
  contrary_evidence : List String := []
  research_sentiment : String := "NEUTRAL"
  triage_status : String := "NONE"
  triage_reasons : List String := []
  recommended_amount : ℚ := 0
  potential_profit : ℚ := 0
deriving Repr, DecidableEq

/-- src/opportunity_scanner.py, _calculate_enhanced_risk_score
(lines 1043-1113): weighted combination of normalized signals, using the
Claude weight table and the Claude-based terms only when Claude analysis is
enabled, clamped to the 0-1 range. -/
def calc_enhanced_risk_score (enable_claude : Bool) (mode : RiskMode)
    (hours_to_expiry liquidity price_distance sentiment_score volume_24h
      spread_pct claude_confidence claude_edge : ℚ) (price_trend : String)
    (recommended_side : String) (correlation_risk : ℚ) : ℚ :=
  let w := if enable_claude then RISK_WEIGHTS mode
           else RISK_WEIGHTS_NO_CLAUDE mode
  let time_score := min 1 (hours_to_expiry / 24)
  let liquidity_score := min 1 (liquidity / 10000)
  let price_score := 1 - price_distance
  let sentiment_factor := sentiment_score
  let volume_score := min 1 (volume_24h / 100000)
  let spread_score := max 0 (1 - spread_pct * 10)
  let confidence :=
    w.time_to_expiry * time_score + w.liquidity * liquidity_score +
    w.price_distance * price_score + w.news_sentiment * sentiment_factor +
    w.volume * volume_score + w.spread * spread_score
  let confidence :=
    if enable_claude then
      let claude_edge_score := min 1 (claude_edge / (20/100))
      let trend_score : ℚ :=
        if price_trend = "UP" ∧ recommended_side = "YES" then 1
        else if price_trend = "DOWN" ∧ recommended_side = "NO" then 1
        else if price_trend = "STABLE" then 7/10
        else 1/2
      confidence + w.claude_confidence * claude_confidence +
        w.claude_edge * claude_edge_score + w.price_trend * trend_score +
        w.correlation_risk * (1 - correlation_risk)
    else confidence
  max 0 (min 1 (1 - confidence))

/-- src/opportunity_scanner.py, _create_enhanced_opportunity
(lines 900-1040): assemble a MarketOpportunity from a pre-filter candidate
and its enrichment data, dropping it on a confident Claude SKIP (when the
risk profile filters those), on an occurred event (when the risk profile
filters those), or when the enhanced confidence is below the profile
floor. -/
def create_enhanced_opportunity (enable_claude : Bool) (mode : RiskMode)
    (analysis : Option ClaudeAnalysis) (enr : EnrichInfo)
    (web : Option WebResearch) (ai_skipped : Bool) (c : Candidate) :
    Option MarketOpportunity :=
  let th := RISK_PROFILE_THRESHOLDS mode
  let claude_probability : ℚ :=
    match analysis with
    | some a => a.probability_yes / 100
    | none => 1/2
  let claude_confidence : ℚ :=
    match analysis with
    | some a => a.confidence / 100
    | none => 1/2
  let claude_recommendation : String :=
    match analysis with
    | some a => a.recommendation
    | none => "SKIP"
  let claude_reasoning :=
    match analysis with
    | some a => a.reasoning
    | none => ""
  let claude_edge : ℚ :=
    match analysis with
    | some a => a.edge_estimate / 100
    | none => 0
  let claude_dropped : Bool :=
    match analysis with
    | some _ =>
        th.filter_claude_skip && decide (claude_recommendation = "SKIP") &&
          decide (claude_confidence > 7/10)
    | none => false
  if claude_dropped then none
  else
    let web_context := (web.getD {}).summary
    let event_status := (web.getD {}).event_status
    if th.filter_event_occurred ∧ event_status = "OCCURRED" then none
    else
      let risk_score := calc_enhanced_risk_score enable_claude mode
        c.market.hours_to_expiry c.liquidity_info.total_liquidity
        (1 - c.entry_price) (1/2) c.volume_24h c.liquidity_info.spread_pct
        claude_confidence |claude_edge| enr.price_trend c.recommended_side
        enr.correlation_risk
      let confidence_score := 1 - risk_score
      if confidence_score < th.min_confidence_score then none
      else
        some { condition_id := c.market.conditionId,
               recommended_side := c.recommended_side,
               token_id := c.token_id, entry_price := c.entry_price,
               expected_profit_pct := c.expected_profit,
               confidence_score := confidence_score,
               risk_score := risk_score, liquidity := c.liquidity,
               spread := c.liquidity_info.spread_pct,
               volume_24h := c.volume_24h,
               hours_to_expiry := c.market.hours_to_expiry,
               claude_probability := claude_probability,
               claude_confidence := claude_confidence,
               claude_recommendation := claude_recommendation,
               claude_reasoning := claude_reasoning,
               claude_edge := claude_edge,
               price_trend := enr.price_trend,
               price_volatility := enr.price_volatility,
               related_markets := enr.related_markets,
               correlation_risk := enr.correlation_risk,
               web_context := web_context, event_status := event_status,
               triggering_event_detected := event_status = "OCCURRED",
               ai_analysis_skipped := ai_skipped }

/-- Prefix test on character lists (helper for substring matching). -/
def leadsChars : List Char → List Char → Bool
  | [], _ => true
  | _ :: _, [] => false
  | a :: as, b :: bs => a = b && leadsChars as bs

/-- Substring test on character lists (helper for substring matching). -/
def subChars (sub : List Char) : List Char → Bool
  | [] => leadsChars sub []
  | b :: bs => leadsChars sub (b :: bs) || subChars sub bs

/-- Python `sub in s` on strings, via the character lists. -/
def strContains (s sub : String) : Bool :=
  subChars sub.data s.data

/-- Rendering of a rational into a reason string.  The source interpolates
floats with fixed-point formats; only the surrounding words matter to the
spec, so the plain decimal-free rendering is used. -/
def fmtQ (q : ℚ) : String := toString q

/-- src/opportunity_scanner.py, _apply_facts (lines 1245-1259): attach
gathered facts to an opportunity. -/
def apply_facts (f : MarketFacts) (opp : MarketOpportunity) :
    MarketOpportunity :=
  { opp with research_facts := f.key_facts,
             research_status := f.current_status,
             research_progress := f.progress_indicator,
             facts_quality := f.data_quality }

/-- src/opportunity_scanner.py, step 7 of scan_with_stats: facts are
applied to the opportunities present in the gathered results. -/
def apply_facts_lookup (facts : String → Option MarketFacts)
    (opp : MarketOpportunity) : MarketOpportunity :=
  match facts opp.condition_id with
  | some f => apply_facts f opp
  | none => opp

/-- The triage thresholds read with getattr defaults
(src/opportunity_scanner.py, lines 1276, 1283, 1289, 1296). -/
structure TriageConfig where
  triage_min_volume_24h : ℚ := 1000
  triage_min_confidence : ℚ := 1/2
  triage_min_edge_pct : ℚ := 1/20
  triage_skip_resolved : Bool := true
deriving Repr, DecidableEq

/-- src/opportunity_scanner.py, resolved_indicators list
(lines 1305-1309). -/
def resolved_indicators : List String :=
  ["already happened", "has occurred", "confirmed", "announced",
   "completed", "finished", "resolved", "event took place",
   "already resolved"]

/-- src/opportunity_scanner.py, _apply_triage_filters (lines 1262-1319):
collect a reason for every failed rule; the opportunity passes exactly when
no reason was collected. -/
def apply_triage_filters (tc : TriageConfig) (opp : MarketOpportunity) :
    Bool × List String :=
  let reasons : List String := []
  let reasons :=
    if opp.volume_24h < tc.triage_min_volume_24h then
      reasons ++ ["Low volume: $" ++ fmtQ opp.volume_24h ++ " < $" ++
        fmtQ tc.triage_min_volume_24h]
    else reasons
  let reasons :=
    if opp.claude_confidence < tc.triage_min_confidence then
      reasons ++ ["Low confidence: " ++ fmtQ (opp.claude_confidence * 100) ++
        "% < " ++ fmtQ (tc.triage_min_confidence * 100) ++ "%"]
    else reasons
  let reasons :=
    if |opp.claude_edge| < tc.triage_min_edge_pct then
      reasons ++ ["Low edge: " ++ fmtQ (|opp.claude_edge| * 100) ++ "% < " ++
        fmtQ (tc.triage_min_edge_pct * 100) ++ "%"]
    else reasons
  let reasons :=
    if tc.triage_skip_resolved then
      if opp.event_status = "OCCURRED" then
        reasons ++ ["Event already occurred"]
      else if opp.research_status ≠ "" then
        match resolved_indicators.find?
            (fun ind => strContains opp.research_status.toLower ind) with
        | some ind => reasons ++ ["Event appears resolved: " ++ ind]
        | none => reasons
      else reasons
    else reasons
  (reasons.isEmpty, reasons)

/-- src/opportunity_scanner.py, scan_with_stats step 8 (lines 699-713):
mark each opportunity PASSED with no reasons, or FILTERED with the
collected reasons. -/
def triage_mark (tc : TriageConfig) (opp : MarketOpportunity) :
    MarketOpportunity :=
  let r := apply_triage_filters tc opp
  if r.1 then { opp with triage_status := "PASSED", triage_reasons := [] }
  else { opp with triage_status := "FILTERED", triage_reasons := r.2 }

/-- src/opportunity_scanner.py, _apply_deep_research (lines 1176-1222). -/
def apply_deep_research (r : DeepResult) (opp : MarketOpportunity) :
    MarketOpportunity :=
  let opp :=
    { opp with deep_research_summary := r.executive_summary,
               deep_research_probability := r.research_probability,
               deep_research_quality := r.research_quality,
               key_facts := r.key_facts.take 5,
               recent_news := r.recent_news.take 3,
               expert_opinions := r.expert_opinions.take 3,
               contrary_evidence := r.contrary_evidence.take 3,
               research_sentiment := r.sentiment }
  let opp :=
    if r.event_occurred then
      { opp with event_status := "OCCURRED",
                 triggering_event_detected := true }
    else opp
  if opp.deep_research_quality = "MEDIUM" ∨
      opp.deep_research_quality = "HIGH" then
    let opp :=
      { opp with claude_probability := r.final_probability,
                 claude_confidence := r.final_confidence,
                 claude_recommendation := r.recommendation,
                 claude_edge := r.edge,
                 claude_reasoning := r.reasoning }
    let opp :=
      if r.recommendation = "SKIP" ∨ opp.event_status = "OCCURRED" then
        { opp with risk_score := min 1 (opp.risk_score + 2/10) }
      else if (r.recommendation = "BUY_YES" ∨ r.recommendation = "BUY_NO") ∧
          r.final_confidence > 7/10 then
        { opp with risk_score := max 0 (opp.risk_score - 1/10) }
      else opp
    { opp with confidence_score := 1 - opp.risk_score }
  else opp

/-- src/opportunity_scanner.py, scan_with_stats step 9: deep research
results are applied to the opportunities present in the result set. -/
def apply_deep_lookup (deep : String → Option DeepResult)
    (opp : MarketOpportunity) : MarketOpportunity :=
  match deep opp.condition_id with
  | some r => apply_deep_research r opp
  | none => opp

/-- src/opportunity_scanner.py, _adjust_for_correlations (lines 1136-1138):
the risk bump applied to a lower-ranked correlated opportunity. -/
def corr_bump (opp : MarketOpportunity) : MarketOpportunity :=
  { opp with correlation_risk := min 1 (opp.correlation_risk + 1/10),
             risk_score := min 1 (opp.risk_score + 5/100) }

/-- Inner loop of _adjust_for_correlations: walk the list with index j and
bump every opportunity after position i that appears among the related
markets of the opportunity at position i. -/
def adjust_inner (o1 : MarketOpportunity) (i : ℕ) :
    ℕ → List MarketOpportunity → List MarketOpportunity
  | _, [] => []
  | j, o2 :: rest =>
    (if i < j ∧ o1.related_markets.contains o2.condition_id then corr_bump o2
     else o2) :: adjust_inner o1 i (j + 1) rest

/-- One outer-loop iteration of _adjust_for_correlations for index i. -/
def adjust_step (acc : List MarketOpportunity) (i : ℕ) :
    List MarketOpportunity :=
  match acc.get? i with
  | none => acc
  | some o1 => adjust_inner o1 i 0 acc

/-- src/opportunity_scanner.py, _adjust_for_correlations (lines 1115-1139):
for every ordered pair i < j where the opportunity at j is related to the
one at i, bump the risk of the one at j. -/
def adjust_for_correlations (l : List MarketOpportunity) :
    List MarketOpportunity :=
  if l.length < 2 then l
  else (List.range l.length).foldl adjust_step l

/-- The sort key relation of scan_with_stats (line 745): risk score
ascending, expected profit descending. -/
def oppLE (a b : MarketOpportunity) : Prop :=
  a.risk_score < b.risk_score ∨
    (a.risk_score = b.risk_score ∧
      b.expected_profit_pct ≤ a.expected_profit_pct)

instance : DecidableRel oppLE := fun a b => by
  unfold oppLE
  infer_instance

/-- src/opportunity_scanner.py, scan_with_stats (line 745):
opportunities.sort by (risk_score, -expected_profit_pct). -/
def sort_opportunities (l : List MarketOpportunity) :
    List MarketOpportunity :=
  List.insertionSort oppLE l

/-- src/opportunity_scanner.py, scan_with_stats (lines 756-770): the
position-sizing walk.  With a fixed amount every opportunity receives it;
otherwise each opportunity receives min(max_per_position, remaining budget)
until the budget is exhausted, after which amounts are zero. -/
def size_positions (fixed_amount : Option ℚ)
    (max_per_position max_allocation : ℚ) :
    List MarketOpportunity → ℚ → List MarketOpportunity
  | [], _ => []
  | opp :: rest, allocated =>
    match fixed_amount with
    | some f =>
      { opp with recommended_amount := f,
                 potential_profit := f * opp.expected_profit_pct } ::
        size_positions fixed_amount max_per_position max_allocation rest
          (allocated + f)
    | none =>
      if allocated ≥ max_allocation then
        { opp with recommended_amount := 0 } ::
          size_positions fixed_amount max_per_position max_allocation rest
            allocated
      else
        let amount := min max_per_position (max_allocation - allocated)
        { opp with recommended_amount := amount,
                   potential_profit := amount * opp.expected_profit_pct } ::
          size_positions fixed_amount max_per_position max_allocation rest
            (allocated + amount)

/-- The scan configuration fields the verified pipeline reads
(src/scanner_config.py, ScannerConfig). -/
structure ScanConfig where
  enable_claude_analysis : Bool := true
  risk_mode : RiskMode := .moderate
  max_markets_to_analyze : ℕ := 50
  fixed_amount : Option ℚ := none
  max_position_pct : ℚ := 1/10
  total_allocation_pct : ℚ := 3/4
  triage : TriageConfig := {}
  enable_related_markets : Bool := true
  enable_deep_research : Bool := false

/-- src/opportunity_scanner.py, scan_with_stats (lines 567-775): the scan
pipeline from fetched markets to the sized, ranked opportunity list.
External data (order books, enrichment, web research, Claude analyses,
real-time facts, deep research results) is supplied as lookups keyed the
way the source keys its result dictionaries; which markets received AI
analysis or research is absorbed into the domains of those lookups. -/
def scan_pipeline (cfg : ScanConfig) (getBook : String → Option Book)
    (enr : String → EnrichInfo) (web : String → Option WebResearch)
    (analyses : String → Option ClaudeAnalysis)
    (ai_skipped : String → Bool) (facts : String → Option MarketFacts)
    (deep : String → Option DeepResult) (cash portfolio : ℚ)
    (markets : List Market) : List MarketOpportunity :=
  let candidates :=
    pre_filter_markets cfg.max_markets_to_analyze cfg.risk_mode getBook
      markets
  let opportunities := candidates.filterMap (fun c =>
    create_enhanced_opportunity cfg.enable_claude_analysis cfg.risk_mode
      (analyses c.market.conditionId) (enr c.market.conditionId)
      (web c.market.conditionId) (ai_skipped c.market.conditionId) c)
  let opportunities := opportunities.map (apply_facts_lookup facts)
  let opportunities := opportunities.map (triage_mark cfg.triage)
  let opportunities :=
    if cfg.enable_deep_research then
      opportunities.map (apply_deep_lookup deep)
    else opportunities
  let opportunities :=
    if cfg.enable_related_markets then adjust_for_correlations opportunities
    else opportunities
  let opportunities := sort_opportunities opportunities
  let maxes : ℚ × ℚ :=
    match cfg.fixed_amount with
    | some f => (f, f * opportunities.length)
    | none => (cash * cfg.max_position_pct,
               portfolio * cfg.total_allocation_pct)
  size_positions cfg.fixed_amount maxes.1 maxes.2 opportunities 0

/-- Position sizing as the specification words it: walk the list in order,
give each opportunity min(max_per_position, remaining budget), and once the
budget is exhausted give every remaining opportunity zero.  Stated from the
spec for comparison with size_positions. -/
def greedy_alloc_spec (mpp : ℚ) : ℚ → List MarketOpportunity →
    List MarketOpportunity
  | _, [] => []
  | remaining, o :: rest =>
    if remaining ≤ 0 then
      { o with recommended_amount := 0 } ::
        greedy_alloc_spec mpp remaining rest
    else
      let amt := min mpp remaining
      { o with recommended_amount := amt,
               potential_profit := amt * o.expected_profit_pct } ::
        greedy_alloc_spec mpp (remaining - amt) rest

/-- Claim C6: with a fixed amount every opportunity receives it and the
potential profit is the amount times the expected profit percentage;
without one the walk is exactly the greedy remaining-budget allocation of
the spec; and with a fixed amount of 10 dollars and three opportunities
each receives exactly 10 dollars. -/
theorem position_sizing_characterization :
    (∀ (f mpp ma a : ℚ) (l : List MarketOpportunity),
      size_positions (some f) mpp ma l a =
        l.map (fun o =>
          { o with recommended_amount := f,
                   potential_profit := f * o.expected_profit_pct })) ∧
    (∀ (mpp ma a : ℚ) (l : List MarketOpportunity),
      size_positions none mpp ma l a = greedy_alloc_spec mpp (ma - a) l) ∧
    (∀ o1 o2 o3 : MarketOpportunity,
      (size_positions (some 10) 10 30 [o1, o2, o3] 0).map
        (fun o => (o.recommended_amount, o.potential_profit)) =
      [(10, 10 * o1.expected_profit_pct), (10, 10 * o2.expected_profit_pct),
       (10, 10 * o3.expected_profit_pct)]) := by
  have hfix : ∀ (f mpp ma a : ℚ) (l : List MarketOpportunity),
      size_positions (some f) mpp ma l a =
        l.map (fun o =>
          { o with recommended_amount := f,
                   potential_profit := f * o.expected_profit_pct }) := by
    intro f mpp ma a l
    induction l generalizing a with
    | nil => simp [size_positions]
    | cons o rest ih => simp [size_positions, ih]
  refine ⟨hfix, ?_, ?_⟩
  · intro mpp ma a l
    induction l generalizing a with
    | nil => simp [size_positions, greedy_alloc_spec]
    | cons o rest ih =>
      simp only [size_positions, greedy_alloc_spec]
      by_cases h : a ≥ ma
      · rw [if_pos h, if_pos (by linarith)]
        simpa using ih a
      · rw [if_neg h, if_neg (by push_neg at h ⊢; linarith)]
        have harith : ma - (a + min mpp (ma - a)) =
            ma - a - min mpp (ma - a) := by ring
        simp only [ih, harith]
  · intro o1 o2 o3
    rw [hfix]
    simp

instance : IsTotal MarketOpportunity oppLE := by
  constructor
  intro a b
  unfold oppLE
  rcases lt_trichotomy a.risk_score b.risk_score with h | h | h
  · exact Or.inl (Or.inl h)
  · rcases le_total b.expected_profit_pct a.expected_profit_pct with hp | hp
    · exact Or.inl (Or.inr ⟨h, hp⟩)
    · exact Or.inr (Or.inr ⟨h.symm, hp⟩)
  · exact Or.inr (Or.inl h)

instance : IsTrans MarketOpportunity oppLE := by
  constructor
  intro a b c hab hbc
  unfold oppLE at hab hbc ⊢
  rcases hab with h1 | ⟨h1, p1⟩
  · rcases hbc with h2 | ⟨h2, _⟩
    · exact Or.inl (h1.trans h2)
    · exact Or.inl (h2 ▸ h1)
  · rcases hbc with h2 | ⟨h2, p2⟩
    · exact Or.inl (h1 ▸ h2)
    · exact Or.inr ⟨h1.trans h2, p2.trans p1⟩

/-- sort_opportunities sorts with respect to oppLE. -/
theorem sorted_sort_opportunities (l : List MarketOpportunity) :
    (sort_opportunities l).Sorted oppLE :=
  List.sorted_insertionSort oppLE l

/-- Sizing keeps the risk and profit scores of each position unchanged. -/
theorem size_positions_map_scores (fa : Option ℚ) (mpp ma a : ℚ)
    (l : List MarketOpportunity) :
    (size_positions fa mpp ma l a).map
        (fun o => (o.risk_score, o.expected_profit_pct)) =
      l.map (fun o => (o.risk_score, o.expected_profit_pct)) := by
  induction l generalizing a with
  | nil => cases fa <;> simp [size_positions]
  | cons o rest ih =>
    cases fa with
    | some f => simp [size_positions, ih]
    | none =>
      simp only [size_positions]
      split_ifs <;> simp [ih]

/-- Claim C5: the opportunity list a scan returns is pairwise ordered by
risk score ascending, and among equal risk scores by expected profit
percentage descending. -/
theorem scan_output_sorted_by_risk_then_profit (cfg : ScanConfig)
    (getBook : String → Option Book) (enr : String → EnrichInfo)
    (web : String → Option WebResearch)
    (analyses : String → Option ClaudeAnalysis) (ai_skipped : String → Bool)
    (facts : String → Option MarketFacts) (deep : String → Option DeepResult)
    (cash portfolio : ℚ) (markets : List Market) :
    (scan_pipeline cfg getBook enr web analyses ai_skipped facts deep cash
        portfolio markets).Pairwise (fun a b =>
      a.risk_score ≤ b.risk_score ∧
      (a.risk_score = b.risk_score →
        b.expected_profit_pct ≤ a.expected_profit_pct)) := by
  have key : ∀ (fa : Option ℚ) (mpp ma : ℚ) (l : List MarketOpportunity),
      (size_positions fa mpp ma (sort_opportunities l) 0).Pairwise
        (fun a b => a.risk_score ≤ b.risk_score ∧
          (a.risk_score = b.risk_score →
            b.expected_profit_pct ≤ a.expected_profit_pct)) := by
    intro fa mpp ma l
    have hsorted : (sort_opportunities l).Pairwise oppLE :=
      sorted_sort_opportunities l
    have hmap : ((sort_opportunities l).map
        (fun o => (o.risk_score, o.expected_profit_pct))).Pairwise
        (fun p q : ℚ × ℚ => p.1 < q.1 ∨ (p.1 = q.1 ∧ q.2 ≤ p.2)) := by
      rw [List.pairwise_map]
      exact hsorted
    rw [← size_positions_map_scores fa mpp ma 0] at hmap
    rw [List.pairwise_map] at hmap
    refine hmap.imp ?_
    rintro a b (h | ⟨h, hp⟩)
    · exact ⟨le_of_lt h, fun heq => absurd (heq ▸ h) (lt_irrefl _)⟩
    · exact ⟨le_of_eq h, fun _ => hp⟩
  unfold scan_pipeline
  cases h : cfg.fixed_amount <;> simp only [h] <;> exact key _ _ _ _
/-- Every candidate the pre-filter emits meets the liquidity floor of the
thresholds it was given. -/
theorem pre_filter_one_liquidity (th : RiskThresholds)
    (getBook : String → Option Book) (m : Market) (c : Candidate)
    (h : pre_filter_one th getBook m = some c) :
    th.min_liquidity ≤ c.liquidity := by
  simp only [pre_filter_one] at h
  split_ifs at h with h1 h2 h3 h4 h5 h6 h7 h8 h9 h10
  all_goals try exact Option.noConfusion h
  · injection h with h
    subst h
    exact le_of_not_lt h4
  · injection h with h
    subst h
    exact le_of_not_lt h8

/-- Every candidate of pre_filter_markets meets the liquidity floor of the
active risk mode. -/
theorem pre_filter_markets_liquidity (maxN : ℕ) (mode : RiskMode)
    (getBook : String → Option Book) (markets : List Market) (c : Candidate)
    (hc : c ∈ pre_filter_markets maxN mode getBook markets) :
    (RISK_PROFILE_THRESHOLDS mode).min_liquidity ≤ c.liquidity := by
  simp only [pre_filter_markets] at hc
  obtain ⟨m, _, hmc⟩ := List.mem_filterMap.mp hc
  exact pre_filter_one_liquidity _ getBook m c hmc

/-- Opportunity creation copies the candidate liquidity verbatim. -/
theorem create_enhanced_opportunity_liquidity (ec : Bool) (mode : RiskMode)
    (analysis : Option ClaudeAnalysis) (enr : EnrichInfo)
    (web : Option WebResearch) (sk : Bool) (c : Candidate)
    (o : MarketOpportunity)
    (h : create_enhanced_opportunity ec mode analysis enr web sk c =
      some o) : o.liquidity = c.liquidity := by
  simp only [create_enhanced_opportunity] at h
  split_ifs at h
  all_goals try exact Option.noConfusion h
  all_goals injection h with h; subst h; rfl

/-- The facts stage does not change liquidity. -/
theorem apply_facts_lookup_liquidity (facts : String → Option MarketFacts)
    (o : MarketOpportunity) :
    (apply_facts_lookup facts o).liquidity = o.liquidity := by
  unfold apply_facts_lookup apply_facts
  cases facts o.condition_id <;> rfl

/-- The triage marking does not change liquidity. -/
theorem triage_mark_liquidity (tc : TriageConfig) (o : MarketOpportunity) :
    (triage_mark tc o).liquidity = o.liquidity := by
  simp only [triage_mark]
  split_ifs <;> rfl

/-- The deep-research stage does not change liquidity. -/
theorem apply_deep_lookup_liquidity (deep : String → Option DeepResult)
    (o : MarketOpportunity) :
    (apply_deep_lookup deep o).liquidity = o.liquidity := by
  unfold apply_deep_lookup
  cases deep o.condition_id with
  | none => rfl
  | some r =>
    simp only [apply_deep_research]
    split_ifs <;> rfl

/-- The correlation bump does not change liquidity. -/
theorem corr_bump_liquidity (o : MarketOpportunity) :
    (corr_bump o).liquidity = o.liquidity := rfl

/-- The correlation inner walk preserves the liquidity list. -/
theorem adjust_inner_map_liquidity (o1 : MarketOpportunity) (i j : ℕ)
    (l : List MarketOpportunity) :
    (adjust_inner o1 i j l).map (fun o => o.liquidity) =
      l.map (fun o => o.liquidity) := by
  induction l generalizing j with
  | nil => rfl
  | cons o2 rest ih =>
    simp only [adjust_inner, List.map_cons, ih]
    congr 1
    split_ifs <;> rfl

/-- One outer correlation step preserves the liquidity list. -/
theorem adjust_step_map_liquidity (acc : List MarketOpportunity) (i : ℕ) :
    (adjust_step acc i).map (fun o => o.liquidity) =
      acc.map (fun o => o.liquidity) := by
  unfold adjust_step
  cases acc.get? i with
  | none => rfl
  | some o1 => exact adjust_inner_map_liquidity o1 i 0 acc

/-- The correlation adjustment pass preserves the liquidity list. -/
theorem adjust_for_correlations_map_liquidity
    (l : List MarketOpportunity) :
    (adjust_for_correlations l).map (fun o => o.liquidity) =
      l.map (fun o => o.liquidity) := by
  unfold adjust_for_correlations
  split_ifs with h
  · rfl
  · have key : ∀ (idx : List ℕ) (acc : List MarketOpportunity),
        (idx.foldl adjust_step acc).map (fun o => o.liquidity) =
          acc.map (fun o => o.liquidity) := by
      intro idx
      induction idx with
      | nil => intro acc; rfl
      | cons i rest ih =>
        intro acc
        simp only [List.foldl_cons, ih, adjust_step_map_liquidity]
    exact key _ l

/-- Sizing preserves the liquidity list. -/
theorem size_positions_map_liquidity (fa : Option ℚ) (mpp ma a : ℚ)
    (l : List MarketOpportunity) :
    (size_positions fa mpp ma l a).map (fun o => o.liquidity) =
      l.map (fun o => o.liquidity) := by
  induction l generalizing a with
  | nil => cases fa <;> rfl
  | cons o rest ih =>
    cases fa with
    | some f => simp [size_positions, ih]
    | none =>
      simp only [size_positions]
      split_ifs <;> simp [ih]

/-- Mapping a liquidity-preserving update over a list preserves the
liquidity list. -/
theorem map_map_liquidity (g : MarketOpportunity → MarketOpportunity)
    (hg : ∀ x, (g x).liquidity = x.liquidity)
    (l : List MarketOpportunity) :
    (l.map g).map (fun o => o.liquidity) =
      l.map (fun o => o.liquidity) := by
  induction l with
  | nil => rfl
  | cons x rest ih => simp [hg, ih]

/-- Claim C7: every opportunity in the scan output meets the minimum
liquidity of the active risk mode; the pre-filter removes markets below the
floor and no later stage re-admits one or changes a liquidity value. -/
theorem scan_output_liquidity_floor (cfg : ScanConfig)
    (getBook : String → Option Book) (enr : String → EnrichInfo)
    (web : String → Option WebResearch)
    (analyses : String → Option ClaudeAnalysis) (ai_skipped : String → Bool)
    (facts : String → Option MarketFacts) (deep : String → Option DeepResult)
    (cash portfolio : ℚ) (o : MarketOpportunity) (markets : List Market)
    (ho : o ∈ scan_pipeline cfg getBook enr web analyses ai_skipped facts
      deep cash portfolio markets) :
    (RISK_PROFILE_THRESHOLDS cfg.risk_mode).min_liquidity ≤ o.liquidity := by
  have h1 : o.liquidity ∈
      (scan_pipeline cfg getBook enr web analyses ai_skipped facts deep cash
        portfolio markets).map (fun o => o.liquidity) :=
    List.mem_map_of_mem _ ho
  simp only [scan_pipeline] at h1
  rw [size_positions_map_liquidity] at h1
  obtain ⟨y, hy, hyl⟩ := List.mem_map.mp h1
  simp only [sort_opportunities, List.mem_insertionSort] at hy
  have h2 : y.liquidity ∈ _ :=
    List.mem_map_of_mem (fun o : MarketOpportunity => o.liquidity) hy
  rw [hyl] at h2
  clear hy hyl h1 ho
  split_ifs at h2
  all_goals try rw [adjust_for_correlations_map_liquidity] at h2
  all_goals
    try rw [map_map_liquidity _ (apply_deep_lookup_liquidity deep)] at h2
  all_goals rw [map_map_liquidity _ (triage_mark_liquidity cfg.triage)] at h2
  all_goals
    rw [map_map_liquidity _ (apply_facts_lookup_liquidity facts)] at h2
  all_goals
    obtain ⟨z, hz, hzl⟩ := List.mem_map.mp h2
    obtain ⟨c, hc, hcz⟩ := List.mem_filterMap.mp hz
    rw [← hzl, create_enhanced_opportunity_liquidity _ _ _ _ _ _ _ _ hcz]
    exact pre_filter_markets_liquidity _ _ _ _ _ hc

/-- Scan configuration for the C7 witness: moderate mode without Claude
analysis. -/
def c7_cfg : ScanConfig :=
  { enable_claude_analysis := false, risk_mode := .moderate }

/-- Concrete market for the C7 witness. -/
def c7_market : Market :=
  { conditionId := "W", volume24hr := 100000, outcomePrices := [4/5, 1/5],
    clobTokenIds := ["YT", "NT"], hours_to_expiry := 24 }

/-- Order-book lookup for the C7 witness. -/
def c7_getBook : String → Option Book := fun t =>
  if t = "YT" then
    some { bids := [(19/25, 1000)], asks := [(21/25, 15000)] }
  else none

/-- The candidate the C7 witness pre-filter produces. -/
def c7_candidate : Candidate :=
  { market := c7_market, yes_price := 4/5, no_price := 1/5,
    yes_token := "YT", no_token := "NT", volume_24h := 100000,
    recommended_side := "YES", entry_price := 4/5, token_id := "YT",
    liquidity_info := { ask_liquidity := 12600, bid_liquidity := 760,
                        total_liquidity := 13360, best_ask := 21/25,
                        best_bid := 19/25, spread := 2/25,
                        spread_pct := 1/10 },
    liquidity := 13360, expected_profit := 1/4 }

/-- The opportunity created from c7_candidate, before triage marking. -/
def c7_opp0 : MarketOpportunity :=
  { condition_id := "W", recommended_side := "YES", token_id := "YT",
    entry_price := 4/5, expected_profit_pct := 1/4,
    confidence_score := 37/50, risk_score := 13/50, liquidity := 13360,
    spread := 1/10, volume_24h := 100000, hours_to_expiry := 24 }

/-- c7_opp0 after triage marking: filtered on the low default edge. -/
def c7_opp1 : MarketOpportunity :=
  { c7_opp0 with triage_status := "FILTERED",
                 triage_reasons := ["Low edge: 0% < 5%"] }

/-- The single opportunity the C7 witness scan produces. -/
def c7_opportunity : MarketOpportunity :=
  { c7_opp1 with recommended_amount := 10, potential_profit := 5/2 }

set_option maxHeartbeats 1000000 in
/-- Witness for C7: a concrete scan whose only opportunity has liquidity
13360, above the moderate-mode floor of 500. -/
theorem scan_output_liquidity_floor_witness :
    c7_opportunity ∈ scan_pipeline c7_cfg c7_getBook (fun _ => {})
      (fun _ => none) (fun _ => none) (fun _ => false) (fun _ => none)
      (fun _ => none) 100 100 [c7_market] ∧
    (RISK_PROFILE_THRESHOLDS c7_cfg.risk_mode).min_liquidity ≤
      c7_opportunity.liquidity := by
  have hpre : pre_filter_markets c7_cfg.max_markets_to_analyze
      c7_cfg.risk_mode c7_getBook [c7_market] = [c7_candidate] := by
    simp [pre_filter_markets, pre_filter_one, analyze_liquidity,
      analyze_liquidity_book, calculate_expected_profit,
      RISK_PROFILE_THRESHOLDS, c7_cfg, c7_market, c7_getBook, c7_candidate,
      List.filterMap_cons]
    norm_num
    rw [if_neg (by decide)]
  have hcreate : create_enhanced_opportunity c7_cfg.enable_claude_analysis
      c7_cfg.risk_mode none {} none false c7_candidate = some c7_opp0 := by
    simp [create_enhanced_opportunity, calc_enhanced_risk_score,
      RISK_WEIGHTS_NO_CLAUDE, RISK_PROFILE_THRESHOLDS, c7_cfg, c7_candidate,
      c7_market, c7_opp0]
    norm_num
    decide
  have hfacts : apply_facts_lookup (fun _ => none) c7_opp0 = c7_opp0 := rfl
  have hfil : apply_triage_filters ({} : TriageConfig) c7_opp0 =
      (false, ["Low edge: 0% < 5%"]) := by
    simp only [apply_triage_filters, fmtQ, c7_opp0]
    norm_num
    decide
  have htri : triage_mark c7_cfg.triage c7_opp0 = c7_opp1 := by
    have hc : c7_cfg.triage = {} := rfl
    simp only [triage_mark]
    rw [hc, hfil]
    rfl
  have hadj : adjust_for_correlations [c7_opp1] = [c7_opp1] := rfl
  have hsort : sort_opportunities [c7_opp1] = [c7_opp1] := rfl
  have hsize : size_positions none (100 * (1/10)) (100 * (3/4)) [c7_opp1] 0 =
      [c7_opportunity] := by
    simp only [c7_opportunity]
    simp [size_positions, c7_opp1, c7_opp0]
    norm_num
  have heq : scan_pipeline c7_cfg c7_getBook (fun _ => {}) (fun _ => none)
      (fun _ => none) (fun _ => false) (fun _ => none) (fun _ => none)
      100 100 [c7_market] = [c7_opportunity] := by
    simp only [scan_pipeline, hpre, List.filterMap_cons, List.filterMap_nil,
      hcreate, List.map_cons, List.map_nil, hfacts, htri]
    rw [if_neg (show ¬ (c7_cfg.enable_deep_research = true) by decide)]
    rw [if_pos (show c7_cfg.enable_related_markets = true by decide)]
    rw [hadj, hsort]
    simp only [c7_cfg, List.length_cons, List.length_nil]
    exact hsize
  have hmem : c7_opportunity ∈ scan_pipeline c7_cfg c7_getBook (fun _ => {})
      (fun _ => none) (fun _ => none) (fun _ => false) (fun _ => none)
      (fun _ => none) 100 100 [c7_market] := by
    rw [heq]
    exact List.mem_singleton_self _
  exact ⟨hmem, scan_output_liquidity_floor c7_cfg c7_getBook (fun _ => {})
    (fun _ => none) (fun _ => none) (fun _ => false) (fun _ => none)
    (fun _ => none) 100 100 c7_opportunity [c7_market] hmem⟩

/-- src/api_cache.py, RateLimiter cooldown state (lines 232-240): the
timestamp until which calls wait, and the consecutive error count. -/
structure RateLimiterState where
  rate_limit_until : ℚ := 0
  consecutive_rate_limits : ℕ := 0
deriving Repr, DecidableEq

/-- src/api_cache.py, report_rate_limit_error (line 285): the base wait is
retry_after when truthy, else 30 seconds. -/
def base_wait (retry_after : Option ℚ) : ℚ :=
  match retry_after with
  | some q => if q ≠ 0 then q else 30
  | none => 30

/-- src/api_cache.py, report_rate_limit_error (lines 286-288): the cooldown
set by the call that brings the consecutive count to n, namely
min(base * min(2 ^ (n-1), 8), 300). -/
def backoff_wait_time (retry_after : Option ℚ) (n : ℕ) : ℚ :=
  min (base_wait retry_after * min ((2 : ℚ) ^ (n - 1)) 8) 300

/-- src/api_cache.py, RateLimiter.report_rate_limit_error (lines 279-291). -/
def report_rate_limit_error (now : ℚ) (retry_after : Option ℚ)
    (s : RateLimiterState) : RateLimiterState :=
  { consecutive_rate_limits := s.consecutive_rate_limits + 1,
    rate_limit_until :=
      now + backoff_wait_time retry_after (s.consecutive_rate_limits + 1) }

/-- src/api_cache.py, RateLimiter.report_success (lines 293-295). -/
def report_success (s : RateLimiterState) : RateLimiterState :=
  { s with consecutive_rate_limits := 0 }

/-- Claim C8: for a fixed nonnegative retry_after base the cooldown set by
the N-th consecutive rate-limit error is non-decreasing in N and capped at
300 seconds, each error call increments the consecutive count and sets the
cooldown for that count, and report_success resets the count to 0. -/
theorem rate_limiter_backoff_props (r : Option ℚ)
    (hb : 0 ≤ base_wait r) :
    (∀ N M : ℕ, N ≤ M →
      backoff_wait_time r N ≤ backoff_wait_time r M) ∧
    (∀ N : ℕ, backoff_wait_time r N ≤ 300) ∧
    (∀ (now : ℚ) (s : RateLimiterState),
      (report_rate_limit_error now r s).consecutive_rate_limits =
        s.consecutive_rate_limits + 1 ∧
      (report_rate_limit_error now r s).rate_limit_until =
        now + backoff_wait_time r (s.consecutive_rate_limits + 1)) ∧
    (∀ s : RateLimiterState,
      (report_success s).consecutive_rate_limits = 0) := by
  refine ⟨?_, ?_, fun now s => ⟨rfl, rfl⟩, fun s => rfl⟩
  · intro N M hNM
    unfold backoff_wait_time
    refine min_le_min ?_ le_rfl
    refine mul_le_mul_of_nonneg_left (min_le_min ?_ le_rfl) hb
    exact pow_le_pow_right (by norm_num) (Nat.sub_le_sub_right hNM 1)
  · intro N
    exact min_le_right _ _

/-- Witness for C8 with the default base of 30 seconds: monotone from the
second to the third error, capped at 300, and a success resets a count of
4 to 0. -/
theorem rate_limiter_backoff_props_witness :
    (0 : ℚ) ≤ base_wait none ∧
    backoff_wait_time none 2 ≤ backoff_wait_time none 3 ∧
    backoff_wait_time none 3 ≤ 300 ∧
    (report_success
      { rate_limit_until := 5,
        consecutive_rate_limits := 4 }).consecutive_rate_limits = 0 := by
  have hb : (0 : ℚ) ≤ base_wait none := by norm_num [base_wait]
  have h := rate_limiter_backoff_props none hb
  exact ⟨hb, h.1 2 3 (by norm_num), h.2.1 3, h.2.2.2 _⟩

/-- A prefix match survives appending on the right. -/
theorem leadsChars_append (sub l1 l2 : List Char)
    (h : leadsChars sub l1 = true) : leadsChars sub (l1 ++ l2) = true := by
  induction sub generalizing l1 with
  | nil => rfl
  | cons a as ih =>
    cases l1 with
    | nil => exact absurd h (by simp [leadsChars])
    | cons b bs =>
      simp only [leadsChars, Bool.and_eq_true] at h ⊢
      exact ⟨h.1, ih bs h.2⟩

/-- The empty pattern is contained in every character list. -/
theorem subChars_nil (l : List Char) : subChars [] l = true := by
  cases l <;> simp [subChars, leadsChars]

/-- A substring match survives appending on the right. -/
theorem subChars_append_left (sub l1 l2 : List Char)
    (h : subChars sub l1 = true) : subChars sub (l1 ++ l2) = true := by
  induction l1 with
  | nil =>
    cases sub with
    | nil => exact subChars_nil l2
    | cons a as => exact absurd h (by simp [subChars, leadsChars])
  | cons b bs ih =>
    simp only [subChars, Bool.or_eq_true] at h
    rcases h with h | h
    · simp only [List.cons_append, subChars, Bool.or_eq_true]
      exact Or.inl (leadsChars_append _ _ _ h)
    · simp only [List.cons_append, subChars, Bool.or_eq_true]
      exact Or.inr (ih h)

/-- The first component of the triage result is the emptiness of the
reasons list. -/
theorem apply_triage_filters_fst (tc : TriageConfig)
    (opp : MarketOpportunity) :
    (apply_triage_filters tc opp).1 =
      (apply_triage_filters tc opp).2.isEmpty := rfl

/-- A low-volume opportunity always carries its volume reason through the
remaining triage rules. -/
theorem triage_low_volume_reason (tc : TriageConfig)
    (opp : MarketOpportunity)
    (h : opp.volume_24h < tc.triage_min_volume_24h) :
    ("Low volume: $" ++ fmtQ opp.volume_24h ++ " < $" ++
        fmtQ tc.triage_min_volume_24h) ∈ (apply_triage_filters tc opp).2 := by
  simp only [apply_triage_filters]
  rw [if_pos h]
  split_ifs <;> (try split) <;> simp

/-- Claim C9: triage passes exactly when no rule collected a reason, and an
opportunity below the default 1000 dollar volume floor is always marked
FILTERED with a reason string containing the word volume, whatever its
other signals. -/
theorem triage_pass_iff_no_reasons_and_volume_gate :
    (∀ (tc : TriageConfig) (opp : MarketOpportunity),
      ((apply_triage_filters tc opp).1 = true ↔
        (apply_triage_filters tc opp).2 = [])) ∧
    (∀ opp : MarketOpportunity, opp.volume_24h < 1000 →
      (triage_mark {} opp).triage_status = "FILTERED" ∧
      ∃ reason ∈ (triage_mark {} opp).triage_reasons,
        strContains reason "volume" = true) := by
  constructor
  · intro tc opp
    rw [apply_triage_filters_fst]
    exact List.isEmpty_iff
  · intro opp h
    have h1000 : opp.volume_24h < ({} : TriageConfig).triage_min_volume_24h :=
      h
    have hmem := triage_low_volume_reason {} opp h1000
    have hne : (apply_triage_filters {} opp).2 ≠ [] := by
      intro he
      rw [he] at hmem
      exact absurd hmem (List.not_mem_nil _)
    have hfst : (apply_triage_filters {} opp).1 = false := by
      rw [apply_triage_filters_fst]
      simpa using hne
    constructor
    · simp only [triage_mark, hfst]
      rfl
    · refine ⟨"Low volume: $" ++ fmtQ opp.volume_24h ++ " < $" ++
        fmtQ ({} : TriageConfig).triage_min_volume_24h, ?_, ?_⟩
      · simp only [triage_mark, hfst]
        simpa using hmem
      · unfold strContains
        have hdata : ("Low volume: $" ++ fmtQ opp.volume_24h ++ " < $" ++
            fmtQ ({} : TriageConfig).triage_min_volume_24h).data =
            "Low volume: $".data ++ ((fmtQ opp.volume_24h).data ++
              (" < $".data ++
                (fmtQ ({} : TriageConfig).triage_min_volume_24h).data)) := by
          simp [String.data_append, List.append_assoc]
        rw [hdata]
        have hpre : subChars "volume".data "Low volume: $".data = true := by
          decide
        have := subChars_append_left "volume".data "Low volume: $".data
          ((fmtQ opp.volume_24h).data ++ (" < $".data ++
            (fmtQ ({} : TriageConfig).triage_min_volume_24h).data)) hpre
        exact this


/-- A favourable opportunity with low volume, for the C9 witness. -/
def c9_opp : MarketOpportunity :=
  { condition_id := "X", recommended_side := "YES", token_id := "T",
    entry_price := 9/10, expected_profit_pct := 1/9,
    confidence_score := 9/10, risk_score := 1/10, liquidity := 50000,
    spread := 1/100, volume_24h := 500, claude_confidence := 9/10,
    claude_edge := 1/5, claude_recommendation := "BUY_YES" }

/-- Witness for C9: an opportunity with 500 dollars of 24h volume and every
other signal favourable is FILTERED with a volume reason. -/
theorem triage_volume_gate_witness :
    (500 : ℚ) < 1000 ∧
    (triage_mark {} c9_opp).triage_status = "FILTERED" ∧
    ∃ reason ∈ (triage_mark {} c9_opp).triage_reasons,
      strContains reason "volume" = true := by
  have h := triage_pass_iff_no_reasons_and_volume_gate.2 c9_opp
    (by norm_num [c9_opp])
  exact ⟨by norm_num, h.1, h.2⟩

end PolymarketBot
